import Mathlib

/-
  Verification of the env-load-manager server against its specification.

  The embedding models the single `locations` table (src/db/schema: part_000),
  the zod input schemas (src/server/src/schema.ts) and the six handlers
  (createLocation: part_004, getLocationById: part_003, updateLocation:
  part_002, deleteLocation: delete_location.ts, bulkUploadLocations:
  bulk_upload_locations.ts, router: part_001).

  Numeric conventions of the embedding:
  - JS numbers are embedded as rationals (ℚ).
  - The `numeric(10,7)` latitude/longitude columns store a decimal value with
    scale 7; storing a value rounds it to 7 fractional digits with ties away
    from zero, as PostgreSQL numeric does (`quantize7`).  The stored decimal
    text and `parseFloat` on read are represented by the exact rational value
    of the stored decimal.
  - The `real` (float4) load columns narrow the stored value to single
    precision: 24 significand bits, round to nearest with ties to even
    (`real32`).  The embedding covers the normal range of float4; the values
    at hand stay far from the overflow and subnormal boundaries.
  - Timestamps are naturals; each mutating handler receives the current time
    (`new Date()` / the column default `now()`) as an explicit parameter.
  - Database errors reaching a handler are represented by an oracle
    `dbFail : Nat → CsvLocation → Option String` giving, per bulk-upload row
    index, the error message of a failing insert (`none` = insert succeeds).
-/

/- The stored row of the `locations` table (part_000). -/
structure LocationRecord where
  id : Nat
  name : String
  address : Option String
  latitude : ℚ
  longitude : ℚ
  snow_load : ℚ
  wind_speed : ℚ
  seismic_load : ℚ
  created_at : Nat
  updated_at : Nat
deriving DecidableEq

/- The database state: the rows of the single table, the serial id counter and
   the current clock (used only to keep time monotone across operations). -/
structure Store where
  rows : List LocationRecord
  nextId : Nat
  now : Nat
deriving DecidableEq

def emptyStore : Store := { rows := [], nextId := 1, now := 0 }

/- createLocationInputSchema (schema.ts lines 20-28): name with min length 1,
   nullable address, bounded coordinates, nonnegative loads. -/
structure CreateLocationInput where
  name : String
  address : Option String
  latitude : ℚ
  longitude : ℚ
  snow_load : ℚ
  wind_speed : ℚ
  seismic_load : ℚ
deriving DecidableEq

/- csvLocationSchema (schema.ts lines 47-55): same shape as the create input. -/
structure CsvLocation where
  name : String
  address : Option String
  latitude : ℚ
  longitude : ℚ
  snow_load : ℚ
  wind_speed : ℚ
  seismic_load : ℚ
deriving DecidableEq

/- updateLocationInputSchema (schema.ts lines 33-42): id plus optional fields;
   address is optional and nullable, hence Option (Option String). -/
structure UpdateLocationInput where
  id : Nat
  name : Option String
  address : Option (Option String)
  latitude : Option ℚ
  longitude : Option ℚ
  snow_load : Option ℚ
  wind_speed : Option ℚ
  seismic_load : Option ℚ
deriving DecidableEq

/- bulkUploadResponseSchema (schema.ts lines 81-85); `errors` is optional. -/
structure BulkUploadResponse where
  success : Bool
  created_count : Nat
  errors : Option (List String)
deriving DecidableEq

/- Zod validation performed by the tRPC router before a handler runs. -/

def createLocationInputValid (i : CreateLocationInput) : Bool :=
  decide (1 ≤ i.name.length) &&
  decide (-90 ≤ i.latitude) && decide (i.latitude ≤ 90) &&
  decide (-180 ≤ i.longitude) && decide (i.longitude ≤ 180) &&
  decide (0 ≤ i.snow_load) && decide (0 ≤ i.wind_speed) && decide (0 ≤ i.seismic_load)

def csvLocationValid (l : CsvLocation) : Bool :=
  decide (1 ≤ l.name.length) &&
  decide (-90 ≤ l.latitude) && decide (l.latitude ≤ 90) &&
  decide (-180 ≤ l.longitude) && decide (l.longitude ≤ 180) &&
  decide (0 ≤ l.snow_load) && decide (0 ≤ l.wind_speed) && decide (0 ≤ l.seismic_load)

def updateLocationInputValid (i : UpdateLocationInput) : Bool :=
  (match i.name with | some n => decide (1 ≤ n.length) | none => true) &&
  (match i.latitude with | some v => decide (-90 ≤ v) && decide (v ≤ 90) | none => true) &&
  (match i.longitude with | some v => decide (-180 ≤ v) && decide (v ≤ 180) | none => true) &&
  (match i.snow_load with | some v => decide (0 ≤ v) | none => true) &&
  (match i.wind_speed with | some v => decide (0 ≤ v) | none => true) &&
  (match i.seismic_load with | some v => decide (0 ≤ v) | none => true)

/- Rounding to the nearest integer with ties away from zero, the tie rule of
   PostgreSQL numeric. -/
def roundAway (x : ℚ) : ℤ := if x < 0 then -round (-x) else round x

/- Storing a coordinate in the `numeric(10,7)` column rounds it to 7 decimal
   digits of scale, ties away from zero (part_000 lines 7-8). -/
def quantize7 (q : ℚ) : ℚ := ((roundAway (q * 10000000) : ℤ) : ℚ) / 10000000

/- Rounding to the nearest integer with ties to even, the IEEE 754 default. -/
def roundEven (x : ℚ) : ℤ :=
  if x - (⌊x⌋ : ℚ) < 1 / 2 then ⌊x⌋
  else if 1 / 2 < x - (⌊x⌋ : ℚ) then ⌊x⌋ + 1
  else if ⌊x⌋ % 2 = 0 then ⌊x⌋ else ⌊x⌋ + 1

/- Storing a load in a `real` (float4) column narrows it to single precision
   (part_000 lines 9-11): round the 24-bit significand to nearest, ties to
   even.  This is the float4 behaviour throughout its normal range; float4
   overflow (beyond about 3.4e38, a database error) and the fixed subnormal
   quantum (below about 1.2e-38) are outside the values exercised here. -/
def real32 (q : ℚ) : ℚ :=
  if q = 0 then 0
  else (roundEven (q / 2 ^ (Int.log 2 |q| - 23)) : ℚ) * 2 ^ (Int.log 2 |q| - 23)

/- createLocation (part_004): insert the row (coordinates quantized by the
   numeric columns, loads narrowed by the real columns, created_at and
   updated_at defaulting to now), return the persisted row with coordinates
   parsed back to numbers. -/
def createLocation (s : Store) (inp : CreateLocationInput) (now : Nat) :
    LocationRecord × Store :=
  let r0 : LocationRecord :=
    { id := s.nextId, name := inp.name, address := inp.address,
      latitude := quantize7 inp.latitude, longitude := quantize7 inp.longitude,
      snow_load := real32 inp.snow_load, wind_speed := real32 inp.wind_speed,
      seismic_load := real32 inp.seismic_load, created_at := now, updated_at := now }
  (r0, { rows := s.rows ++ [r0], nextId := s.nextId + 1, now := now })

/- One row insert of bulkUploadLocations (bulk_upload_locations.ts lines 17-27). -/
def insertCsvRow (s : Store) (l : CsvLocation) (now : Nat) : LocationRecord × Store :=
  let r0 : LocationRecord :=
    { id := s.nextId, name := l.name, address := l.address,
      latitude := quantize7 l.latitude, longitude := quantize7 l.longitude,
      snow_load := real32 l.snow_load, wind_speed := real32 l.wind_speed,
      seismic_load := real32 l.seismic_load, created_at := now, updated_at := now }
  (r0, { rows := s.rows ++ [r0], nextId := s.nextId + 1, now := now })

/- getLocationById (part_003): select where id = input.id limit 1; null when
   no row matches, the row (coordinates parsed back) otherwise. -/
def getLocationById (s : Store) (i : Nat) : Option LocationRecord :=
  s.rows.find? (fun r => r.id == i)

/- deleteLocation (delete_location.ts): delete where id = input.id returning;
   success iff at least one row was deleted. -/
def deleteLocation (s : Store) (i : Nat) : Bool × Store :=
  (!(s.rows.find? (fun r => r.id == i)).isNone,
   { s with rows := s.rows.filter (fun r => r.id != i) })

/- The per-row effect of updateLocation (part_002 lines 9-34): only provided
   fields enter updateData (an explicit null address is provided and
   overwrites), coordinates pass through the numeric columns, loads through
   the real columns, updated_at is always set to now, id and created_at are
   untouched. -/
def applyUpdate (inp : UpdateLocationInput) (now : Nat) (r : LocationRecord) :
    LocationRecord where
  id := r.id
  name := match inp.name with | some v => v | none => r.name
  address := match inp.address with | some a => a | none => r.address
  latitude := match inp.latitude with | some v => quantize7 v | none => r.latitude
  longitude := match inp.longitude with | some v => quantize7 v | none => r.longitude
  snow_load := match inp.snow_load with | some v => real32 v | none => r.snow_load
  wind_speed := match inp.wind_speed with | some v => real32 v | none => r.wind_speed
  seismic_load := match inp.seismic_load with | some v => real32 v | none => r.seismic_load
  created_at := r.created_at
  updated_at := now

/- updateLocation (part_002): update ... where id = input.id returning; if the
   result set is empty throw "Location with id {id} not found", otherwise
   return the first updated row with coordinates parsed back. -/
def updateLocation (s : Store) (inp : UpdateLocationInput) (now : Nat) :
    Except String (LocationRecord × Store) :=
  match s.rows.find? (fun r => r.id == inp.id) with
  | none => .error ("Location with id " ++ toString inp.id ++ " not found")
  | some r =>
      .ok (applyUpdate inp now r,
           { rows := s.rows.map (fun q => if q.id == inp.id then applyUpdate inp now q else q),
             nextId := s.nextId, now := now })

/- The store after an updateLocation call: unchanged when the call throws. -/
def updateStore (s : Store) (inp : UpdateLocationInput) (now : Nat) : Store :=
  match updateLocation s inp now with
  | .ok p => p.2
  | .error _ => s

/- The loop of bulkUploadLocations (bulk_upload_locations.ts lines 12-35):
   iterate rows in order from absolute index k; a successful insert increments
   the count, a failing insert appends "Row {i+1} ({name}): {message}" and
   processing continues.  Returns (created count, error messages, store). -/
def rowErrorMsg (n : Nat) (name : String) (reason : String) : String :=
  "Row " ++ toString n ++ " (" ++ name ++ "): " ++ reason

def bulkGo (dbFail : Nat → CsvLocation → Option String) (now : Nat) :
    List CsvLocation → Nat → Store → Nat × List String × Store
  | [], _, s => (0, [], s)
  | l :: ls, k, s =>
      match dbFail k l with
      | none =>
          let t := bulkGo dbFail now ls (k + 1) (insertCsvRow s l now).2
          (t.1 + 1, t.2.1, t.2.2)
      | some msg =>
          let t := bulkGo dbFail now ls (k + 1) s
          (t.1, rowErrorMsg (k + 1) l.name msg :: t.2.1, t.2.2)

/- bulkUploadLocations (bulk_upload_locations.ts): run the loop inside the
   transaction scope (per-row errors are caught inside it, so the scope
   commits; see the spec-modelling note on claim C2), then assemble the
   response: success iff createdCount > 0, errors omitted when empty. -/
def bulkUploadLocations (dbFail : Nat → CsvLocation → Option String) (s : Store)
    (now : Nat) (input : List CsvLocation) : BulkUploadResponse × Store :=
  let t := bulkGo dbFail now input 0 s
  ({ success := decide (0 < t.1), created_count := t.1,
     errors := if t.2.1.isEmpty then none else some t.2.1 }, t.2.2)

/- The bulkUploadLocations RPC as exposed by the router (part_001 lines 62-64):
   tRPC validates the whole input against bulkUploadInputSchema (a nonempty
   array of csvLocationSchema rows) before the handler runs; a validation
   failure rejects the entire call. -/
def bulkUploadRPC (dbFail : Nat → CsvLocation → Option String) (s : Store)
    (now : Nat) (input : List CsvLocation) :
    Except String (BulkUploadResponse × Store) :=
  if decide (1 ≤ input.length) && input.all csvLocationValid then
    .ok (bulkUploadLocations dbFail s now input)
  else
    .error "Invalid input"

/- Spec-side description of the bulk-upload error report (section 4.6 of the
   spec): walking the candidate list in order from index k, each failing row
   contributes one message carrying its 1-based row number, its name and the
   failure reason, and the walk never stops early. -/
def bulkRowErrorsSpec (dbFail : Nat → CsvLocation → Option String) :
    Nat → List CsvLocation → List String
  | _, [] => []
  | k, l :: ls =>
      match dbFail k l with
      | none => bulkRowErrorsSpec dbFail (k + 1) ls
      | some msg => rowErrorMsg (k + 1) l.name msg :: bulkRowErrorsSpec dbFail (k + 1) ls

/- A stored row carrying the content of a bulk-upload candidate inserted at
   time t (identity of every column value except the system-assigned id). -/
def MatchesRow (r : LocationRecord) (l : CsvLocation) (t : Nat) : Prop :=
  r.name = l.name ∧ r.address = l.address ∧
  r.latitude = quantize7 l.latitude ∧ r.longitude = quantize7 l.longitude ∧
  r.snow_load = real32 l.snow_load ∧ r.wind_speed = real32 l.wind_speed ∧
  r.seismic_load = real32 l.seismic_load ∧ r.created_at = t ∧ r.updated_at = t

/- Reachability by sequences of schema-validated operations (the router only
   forwards inputs accepted by the zod schemas), with a monotone clock. -/
inductive Reachable : Store → Prop
  | empty : Reachable emptyStore
  | create (s : Store) (inp : CreateLocationInput) (t : Nat) :
      Reachable s → createLocationInputValid inp = true → s.now ≤ t →
      Reachable (createLocation s inp t).2
  | update (s : Store) (inp : UpdateLocationInput) (t : Nat) :
      Reachable s → updateLocationInputValid inp = true → s.now ≤ t →
      Reachable (updateStore s inp t)
  | delete (s : Store) (i : Nat) :
      Reachable s → Reachable (deleteLocation s i).2
  | bulk (s : Store) (dbFail : Nat → CsvLocation → Option String)
      (input : List CsvLocation) (t : Nat) :
      Reachable s → (∀ l ∈ input, csvLocationValid l = true) → s.now ≤ t →
      Reachable (bulkUploadLocations dbFail s t input).2

/- The record-level part of the data-model invariant (spec section 3). -/
def RecordOk (now : Nat) (r : LocationRecord) : Prop :=
  -90 ≤ r.latitude ∧ r.latitude ≤ 90 ∧
  -180 ≤ r.longitude ∧ r.longitude ≤ 180 ∧
  0 ≤ r.snow_load ∧ 0 ≤ r.wind_speed ∧ 0 ≤ r.seismic_load ∧
  r.created_at ≤ r.updated_at ∧ r.updated_at ≤ now

def StoreOk (s : Store) : Prop := ∀ r ∈ s.rows, RecordOk s.now r

/- Rounding is monotone, hence quantize7 is monotone. -/
theorem round_rat_mono {x y : ℚ} (h : x ≤ y) : round x ≤ round y := by
  rw [round_eq, round_eq]
  exact Int.floor_mono (by linarith)

theorem roundAway_intCast (n : ℤ) : roundAway ((n : ℚ)) = n := by
  unfold roundAway
  by_cases h : (n : ℚ) < 0
  · rw [if_pos h]
    rw [show -((n : ℚ)) = ((-n : ℤ) : ℚ) by push_cast; ring, round_intCast]
    omega
  · rw [if_neg h, round_intCast]

theorem round_nonneg_of_nonneg {x : ℚ} (h : 0 ≤ x) : 0 ≤ round x := by
  have h1 := round_rat_mono h
  rwa [round_zero] at h1

theorem roundAway_mono {x y : ℚ} (h : x ≤ y) : roundAway x ≤ roundAway y := by
  unfold roundAway
  by_cases hx : x < 0 <;> by_cases hy : y < 0
  · rw [if_pos hx, if_pos hy]
    have h1 := round_rat_mono (neg_le_neg h)
    omega
  · rw [if_pos hx, if_neg hy]
    have h1 : 0 ≤ round (-x) := round_nonneg_of_nonneg (by linarith)
    have h2 : 0 ≤ round y := round_nonneg_of_nonneg (by linarith)
    omega
  · exact absurd (lt_of_le_of_lt h hy) hx
  · rw [if_neg hx, if_neg hy]
    exact round_rat_mono h

theorem abs_sub_roundAway (x : ℚ) : |x - ((roundAway x : ℤ) : ℚ)| ≤ 1 / 2 := by
  unfold roundAway
  by_cases hx : x < 0
  · rw [if_pos hx]
    have h1 := abs_sub_round (-x)
    have h2 : x - (((-round (-x) : ℤ)) : ℚ) = -(-x - ((round (-x) : ℤ) : ℚ)) := by
      push_cast
      ring
    rw [h2, abs_neg]
    exact h1
  · rw [if_neg hx]
    exact abs_sub_round x

theorem quantize7_mono {x y : ℚ} (h : x ≤ y) : quantize7 x ≤ quantize7 y := by
  unfold quantize7
  have h1 : roundAway (x * 10000000) ≤ roundAway (y * 10000000) :=
    roundAway_mono (by nlinarith)
  have h2 : ((roundAway (x * 10000000) : ℤ) : ℚ)
      ≤ ((roundAway (y * 10000000) : ℤ) : ℚ) := by
    exact_mod_cast h1
  linarith

/- quantize7 fixes values that already have scale at most 7; in particular it
   fixes the integer range bounds used by the schemas. -/
theorem quantize7_intCast (n : ℤ) : quantize7 ((n : ℚ)) = (n : ℚ) := by
  unfold quantize7
  have h1 : ((n : ℚ)) * 10000000 = ((n * 10000000 : ℤ) : ℚ) := by push_cast; ring
  rw [h1, roundAway_intCast]
  push_cast
  field_simp

theorem quantize7_le_of_le {q : ℚ} {n : ℤ} (h : q ≤ (n : ℚ)) : quantize7 q ≤ (n : ℚ) := by
  have h1 := quantize7_mono h
  rwa [quantize7_intCast] at h1

theorem le_quantize7_of_le {q : ℚ} {n : ℤ} (h : (n : ℚ) ≤ q) : (n : ℚ) ≤ quantize7 q := by
  have h1 := quantize7_mono h
  rwa [quantize7_intCast] at h1

/- The quantization error is at most half of the last stored digit. -/
theorem abs_quantize7_sub_le (q : ℚ) : |quantize7 q - q| ≤ 1 / 20000000 := by
  unfold quantize7
  have h1 : |q * 10000000 - ((roundAway (q * 10000000) : ℤ) : ℚ)| ≤ 1 / 2 :=
    abs_sub_roundAway (q * 10000000)
  have h2 : ((roundAway (q * 10000000) : ℤ) : ℚ) / 10000000 - q
      = -((q * 10000000 - ((roundAway (q * 10000000) : ℤ) : ℚ)) / 10000000) := by
    ring
  rw [h2, abs_neg, abs_div]
  rw [show |(10000000 : ℚ)| = 10000000 by norm_num]
  rw [div_le_div_iff₀ (by norm_num) (by norm_num)]
  nlinarith [h1]

/- Rounding ties to even never moves a nonnegative value below zero, so the
   float4 narrowing preserves the nonnegativity the schemas guarantee. -/
theorem roundEven_nonneg {x : ℚ} (hx : 0 ≤ x) : 0 ≤ roundEven x := by
  have h : 0 ≤ ⌊x⌋ := Int.floor_nonneg.mpr hx
  unfold roundEven
  split_ifs <;> omega

theorem real32_nonneg {q : ℚ} (hq : 0 ≤ q) : 0 ≤ real32 q := by
  unfold real32
  by_cases h0 : q = 0
  · rw [if_pos h0]
  · rw [if_neg h0]
    have hp : (0 : ℚ) < 2 ^ (Int.log 2 |q| - 23) := by positivity
    have h1 : 0 ≤ q / 2 ^ (Int.log 2 |q| - 23) := by positivity
    have h2 : (0 : ℤ) ≤ roundEven (q / 2 ^ (Int.log 2 |q| - 23)) := roundEven_nonneg h1
    have h3 : (0 : ℚ) ≤ ((roundEven (q / 2 ^ (Int.log 2 |q| - 23)) : ℤ) : ℚ) := by
      exact_mod_cast h2
    exact mul_nonneg h3 (le_of_lt hp)

/- The base-2 integer logarithm at a value bracketed by powers of two. -/
theorem int_log_two_eq {r : ℚ} {n : ℤ} (hr : 0 < r) (h1 : (2 : ℚ) ^ n ≤ r)
    (h2 : r < (2 : ℚ) ^ (n + 1)) : Int.log 2 r = n := by
  have ha : n ≤ Int.log 2 r := by
    rw [← Int.zpow_le_iff_le_log (by norm_num) hr]
    push_cast
    exact h1
  have hb : Int.log 2 r < n + 1 := by
    rw [← Int.lt_zpow_iff_log_lt (by norm_num) hr]
    push_cast
    exact h2
  omega


/- quantize7 fixes the integral schema bounds, giving range preservation. -/
theorem quantize7_neg90 : quantize7 (-90 : ℚ) = -90 := by
  have h := quantize7_intCast (-90)
  push_cast at h
  exact h

theorem quantize7_90 : quantize7 (90 : ℚ) = 90 := by
  have h := quantize7_intCast 90
  push_cast at h
  exact h

theorem quantize7_neg180 : quantize7 (-180 : ℚ) = -180 := by
  have h := quantize7_intCast (-180)
  push_cast at h
  exact h

theorem quantize7_180 : quantize7 (180 : ℚ) = 180 := by
  have h := quantize7_intCast 180
  push_cast at h
  exact h

theorem quantize7_ge_neg90 {q : ℚ} (h : -90 ≤ q) : -90 ≤ quantize7 q := by
  have h1 := quantize7_mono h
  rwa [quantize7_neg90] at h1

theorem quantize7_le_90 {q : ℚ} (h : q ≤ 90) : quantize7 q ≤ 90 := by
  have h1 := quantize7_mono h
  rwa [quantize7_90] at h1

theorem quantize7_ge_neg180 {q : ℚ} (h : -180 ≤ q) : -180 ≤ quantize7 q := by
  have h1 := quantize7_mono h
  rwa [quantize7_neg180] at h1

theorem quantize7_le_180 {q : ℚ} (h : q ≤ 180) : quantize7 q ≤ 180 := by
  have h1 := quantize7_mono h
  rwa [quantize7_180] at h1

/- Aging a record-level invariant to a later clock value. -/
theorem RecordOk_mono {t1 t2 : Nat} (h : t1 ≤ t2) {r : LocationRecord}
    (hr : RecordOk t1 r) : RecordOk t2 r := by
  obtain ⟨h1, h2, h3, h4, h5, h6, h7, h8, h9⟩ := hr
  exact ⟨h1, h2, h3, h4, h5, h6, h7, h8, le_trans h9 h⟩

/- A freshly inserted bulk-upload row satisfies the record invariant. -/
theorem RecordOk_insertCsvRow {s : Store} {l : CsvLocation} {t : Nat}
    (hv : csvLocationValid l = true) : RecordOk t (insertCsvRow s l t).1 := by
  simp only [csvLocationValid, Bool.and_eq_true, decide_eq_true_eq] at hv
  obtain ⟨⟨⟨⟨⟨⟨⟨-, hla1⟩, hla2⟩, hlo1⟩, hlo2⟩, hs⟩, hw⟩, hq⟩ := hv
  exact ⟨quantize7_ge_neg90 hla1, quantize7_le_90 hla2,
    quantize7_ge_neg180 hlo1, quantize7_le_180 hlo2,
    real32_nonneg hs, real32_nonneg hw, real32_nonneg hq, le_refl t, le_refl t⟩

theorem StoreOk_insertCsvRow {s : Store} {l : CsvLocation} {t : Nat}
    (hs : StoreOk s) (hv : csvLocationValid l = true) (ht : s.now ≤ t) :
    StoreOk (insertCsvRow s l t).2 := by
  intro r hr
  simp only [insertCsvRow, List.mem_append, List.mem_singleton] at hr
  rcases hr with hr | hr
  · exact RecordOk_mono ht (hs r hr)
  · subst hr; exact RecordOk_insertCsvRow hv

/- A freshly created row satisfies the record invariant. -/
theorem RecordOk_createLocation {s : Store} {inp : CreateLocationInput} {t : Nat}
    (hv : createLocationInputValid inp = true) :
    RecordOk t (createLocation s inp t).1 := by
  simp only [createLocationInputValid, Bool.and_eq_true, decide_eq_true_eq] at hv
  obtain ⟨⟨⟨⟨⟨⟨⟨-, hla1⟩, hla2⟩, hlo1⟩, hlo2⟩, hs⟩, hw⟩, hq⟩ := hv
  exact ⟨quantize7_ge_neg90 hla1, quantize7_le_90 hla2,
    quantize7_ge_neg180 hlo1, quantize7_le_180 hlo2,
    real32_nonneg hs, real32_nonneg hw, real32_nonneg hq, le_refl t, le_refl t⟩

theorem StoreOk_createLocation {s : Store} {inp : CreateLocationInput} {t : Nat}
    (hs : StoreOk s) (hv : createLocationInputValid inp = true) (ht : s.now ≤ t) :
    StoreOk (createLocation s inp t).2 := by
  intro r hr
  simp only [createLocation, List.mem_append, List.mem_singleton] at hr
  rcases hr with hr | hr
  · exact RecordOk_mono ht (hs r hr)
  · subst hr; exact RecordOk_createLocation hv

theorem StoreOk_bulkGo (dbFail : Nat → CsvLocation → Option String) (t : Nat)
    (ls : List CsvLocation) (k : Nat) (s : Store) (hs : StoreOk s)
    (ht : s.now ≤ t) (hv : ∀ l ∈ ls, csvLocationValid l = true) :
    StoreOk (bulkGo dbFail t ls k s).2.2 := by
  induction ls generalizing k s with
  | nil => simpa [bulkGo] using hs
  | cons l ls ih =>
      have hvl : csvLocationValid l = true := hv l (by simp)
      have hvs : ∀ x ∈ ls, csvLocationValid x = true := fun x hx => hv x (by simp [hx])
      cases hdb : dbFail k l with
      | none =>
          simp only [bulkGo, hdb]
          exact ih (k + 1) (insertCsvRow s l t).2
            (StoreOk_insertCsvRow hs hvl ht) (by simp [insertCsvRow]) hvs
      | some msg =>
          simp only [bulkGo, hdb]
          exact ih (k + 1) s hs ht hvs

theorem StoreOk_bulkUploadLocations {dbFail : Nat → CsvLocation → Option String}
    {s : Store} {t : Nat} {input : List CsvLocation} (hs : StoreOk s)
    (ht : s.now ≤ t) (hv : ∀ l ∈ input, csvLocationValid l = true) :
    StoreOk (bulkUploadLocations dbFail s t input).2 :=
  StoreOk_bulkGo dbFail t input 0 s hs ht hv

/- A row touched by a valid update keeps the record invariant at time t. -/
theorem RecordOk_applyUpdate {t0 t : Nat} {inp : UpdateLocationInput}
    {p : LocationRecord} (hok : RecordOk t0 p) (ht : t0 ≤ t)
    (hv : updateLocationInputValid inp = true) :
    RecordOk t (applyUpdate inp t p) := by
  obtain ⟨i, na, ad, la, lo, sl, ws, se⟩ := inp
  obtain ⟨h1, h2, h3, h4, h5, h6, h7, h8, h9⟩ := hok
  simp only [updateLocationInputValid, Bool.and_eq_true] at hv
  obtain ⟨⟨⟨⟨⟨-, hla⟩, hlo⟩, hsl⟩, hwl⟩, hql⟩ := hv
  refine ⟨?_, ?_, ?_, ?_, ?_, ?_, ?_, ?_, le_refl t⟩
  · cases la with
    | none => simpa [applyUpdate] using h1
    | some v =>
        simp only [Bool.and_eq_true, decide_eq_true_eq] at hla
        simpa [applyUpdate] using quantize7_ge_neg90 hla.1
  · cases la with
    | none => simpa [applyUpdate] using h2
    | some v =>
        simp only [Bool.and_eq_true, decide_eq_true_eq] at hla
        simpa [applyUpdate] using quantize7_le_90 hla.2
  · cases lo with
    | none => simpa [applyUpdate] using h3
    | some v =>
        simp only [Bool.and_eq_true, decide_eq_true_eq] at hlo
        simpa [applyUpdate] using quantize7_ge_neg180 hlo.1
  · cases lo with
    | none => simpa [applyUpdate] using h4
    | some v =>
        simp only [Bool.and_eq_true, decide_eq_true_eq] at hlo
        simpa [applyUpdate] using quantize7_le_180 hlo.2
  · cases sl with
    | none => simpa [applyUpdate] using h5
    | some v =>
        simp only [decide_eq_true_eq] at hsl
        simpa [applyUpdate] using real32_nonneg hsl
  · cases ws with
    | none => simpa [applyUpdate] using h6
    | some v =>
        simp only [decide_eq_true_eq] at hwl
        simpa [applyUpdate] using real32_nonneg hwl
  · cases se with
    | none => simpa [applyUpdate] using h7
    | some v =>
        simp only [decide_eq_true_eq] at hql
        simpa [applyUpdate] using real32_nonneg hql
  · show (applyUpdate _ t p).created_at ≤ (applyUpdate _ t p).updated_at
    simp only [applyUpdate]
    exact le_trans h8 (le_trans h9 ht)

theorem StoreOk_updateStore {s : Store} {inp : UpdateLocationInput} {t : Nat}
    (hs : StoreOk s) (hv : updateLocationInputValid inp = true) (ht : s.now ≤ t) :
    StoreOk (updateStore s inp t) := by
  cases hf : s.rows.find? (fun r => r.id == inp.id) with
  | none =>
      have hrw : updateStore s inp t = s := by
        unfold updateStore updateLocation
        rw [hf]
      rw [hrw]
      exact hs
  | some r =>
      have hrw : updateStore s inp t =
          { rows := s.rows.map
              (fun q => if q.id == inp.id then applyUpdate inp t q else q),
            nextId := s.nextId, now := t } := by
        unfold updateStore updateLocation
        rw [hf]
      rw [hrw]
      intro q hq
      simp only [List.mem_map] at hq
      obtain ⟨p, hp, hpq⟩ := hq
      subst hpq
      cases hid : (p.id == inp.id) with
      | true =>
          simp only [hid, if_true]
          exact RecordOk_applyUpdate (hs p hp) ht hv
      | false =>
          simp only [hid, Bool.false_eq_true, if_false]
          exact RecordOk_mono ht (hs p hp)

theorem StoreOk_deleteLocation {s : Store} {i : Nat} (hs : StoreOk s) :
    StoreOk (deleteLocation s i).2 := by
  intro r hr
  simp only [deleteLocation, List.mem_filter] at hr
  exact hs r hr.1

/- Every store reachable through schema-validated operations satisfies the
   data-model invariant. -/
theorem StoreOk_of_Reachable {s : Store} (h : Reachable s) : StoreOk s := by
  induction h with
  | empty => intro r hr; simp [emptyStore] at hr
  | create s inp t _ hv ht ih => exact StoreOk_createLocation ih hv ht
  | update s inp t _ hv ht ih => exact StoreOk_updateStore ih hv ht
  | delete s i _ ih => exact StoreOk_deleteLocation ih
  | bulk s dbFail input t _ hv ht ih => exact StoreOk_bulkUploadLocations ih ht hv

/- Structural facts about the bulk-upload loop. -/

theorem bulkGo_rows_length (dbFail : Nat → CsvLocation → Option String) (t : Nat)
    (ls : List CsvLocation) (k : Nat) (s : Store) :
    (bulkGo dbFail t ls k s).2.2.rows.length
      = s.rows.length + (bulkGo dbFail t ls k s).1 := by
  induction ls generalizing k s with
  | nil => simp [bulkGo]
  | cons l ls ih =>
      cases hdb : dbFail k l with
      | none =>
          simp only [bulkGo, hdb]
          rw [ih (k + 1) (insertCsvRow s l t).2]
          simp [insertCsvRow]
          omega
      | some msg =>
          simp only [bulkGo, hdb]
          exact ih (k + 1) s

theorem bulkGo_errors_eq (dbFail : Nat → CsvLocation → Option String) (t : Nat)
    (ls : List CsvLocation) (k : Nat) (s : Store) :
    (bulkGo dbFail t ls k s).2.1 = bulkRowErrorsSpec dbFail k ls := by
  induction ls generalizing k s with
  | nil => simp [bulkGo, bulkRowErrorsSpec]
  | cons l ls ih =>
      cases hdb : dbFail k l with
      | none => simp only [bulkGo, bulkRowErrorsSpec, hdb]; exact ih (k + 1) _
      | some msg => simp only [bulkGo, bulkRowErrorsSpec, hdb]; rw [ih (k + 1) s]

theorem bulkGo_count_add_failures (dbFail : Nat → CsvLocation → Option String)
    (t : Nat) (ls : List CsvLocation) (k : Nat) (s : Store) :
    (bulkGo dbFail t ls k s).1 + (bulkRowErrorsSpec dbFail k ls).length
      = ls.length := by
  induction ls generalizing k s with
  | nil => simp [bulkGo, bulkRowErrorsSpec]
  | cons l ls ih =>
      cases hdb : dbFail k l with
      | none =>
          simp only [bulkGo, bulkRowErrorsSpec, hdb, List.length_cons]
          have h := ih (k + 1) (insertCsvRow s l t).2
          omega
      | some msg =>
          simp only [bulkGo, bulkRowErrorsSpec, hdb, List.length_cons]
          have h := ih (k + 1) s
          omega

theorem bulkGo_mem_preserved (dbFail : Nat → CsvLocation → Option String)
    (t : Nat) (ls : List CsvLocation) (k : Nat) (s : Store) {r : LocationRecord}
    (hr : r ∈ s.rows) : r ∈ (bulkGo dbFail t ls k s).2.2.rows := by
  induction ls generalizing k s with
  | nil => simpa [bulkGo] using hr
  | cons l ls ih =>
      cases hdb : dbFail k l with
      | none =>
          simp only [bulkGo, hdb]
          exact ih (k + 1) (insertCsvRow s l t).2 (by simp [insertCsvRow, hr])
      | some msg =>
          simp only [bulkGo, hdb]
          exact ih (k + 1) s hr

theorem bulkGo_success_persisted (dbFail : Nat → CsvLocation → Option String)
    (t : Nat) (ls : List CsvLocation) (k : Nat) (s : Store) (i : Nat)
    (hi : i < ls.length) (hok : dbFail (k + i) (ls.get ⟨i, hi⟩) = none) :
    ∃ r ∈ (bulkGo dbFail t ls k s).2.2.rows, MatchesRow r (ls.get ⟨i, hi⟩) t := by
  induction ls generalizing k s i with
  | nil => simp at hi
  | cons l ls ih =>
      cases i with
      | zero =>
          have hok0 : dbFail k l = none := by simpa using hok
          simp only [List.get, bulkGo, hok0]
          refine ⟨(insertCsvRow s l t).1, ?_, ?_⟩
          · exact bulkGo_mem_preserved dbFail t ls (k + 1) (insertCsvRow s l t).2
              (by simp [insertCsvRow])
          · exact ⟨rfl, rfl, rfl, rfl, rfl, rfl, rfl, rfl, rfl⟩
      | succ m =>
          have hm : m < ls.length := by simpa using hi
          have hok1 : dbFail ((k + 1) + m) (ls.get ⟨m, hm⟩) = none := by
            have h1 : (k + 1) + m = k + (m + 1) := by omega
            rw [h1]
            simpa [List.get] using hok
          cases hdb : dbFail k l with
          | none =>
              simp only [List.get, bulkGo, hdb]
              exact ih (k + 1) (insertCsvRow s l t).2 m hm hok1
          | some msg =>
              simp only [List.get, bulkGo, hdb]
              exact ih (k + 1) s m hm hok1

/- With pairwise distinct ids, find? by id returns the member itself. -/
theorem find_by_id_unique {l : List LocationRecord} {i : Nat} {r : LocationRecord}
    (hnd : (l.map LocationRecord.id).Nodup) (hm : r ∈ l) (hr : r.id = i) :
    l.find? (fun q => q.id == i) = some r := by
  induction l with
  | nil => simp at hm
  | cons a l ih =>
      simp only [List.map_cons, List.nodup_cons] at hnd
      rcases List.mem_cons.mp hm with hm | hm
      · subst hm
        simp [List.find?, hr]
      · have hne : a.id ≠ i := by
          intro hai
          apply hnd.1
          have h1 : r.id ∈ l.map LocationRecord.id :=
            List.mem_map_of_mem LocationRecord.id hm
          rw [hr] at h1
          rw [hai]
          exact h1
        simp only [List.find?]
        rw [show (a.id == i) = false by simpa using hne]
        exact ih hnd.2 hm

/- Concrete fixtures used by witnesses and counterexamples. -/

def sampleCreate : CreateLocationInput :=
  { name := "Test Site", address := some "123 Main St", latitude := 40,
    longitude := -74, snow_load := 2, wind_speed := 25, seismic_load := 1 }

def sampleRecord : LocationRecord :=
  { id := 1, name := "Test Site", address := some "123 Main St", latitude := 40,
    longitude := -74, snow_load := 2, wind_speed := 25, seismic_load := 1,
    created_at := 1, updated_at := 1 }

def sampleStore : Store := { rows := [sampleRecord], nextId := 2, now := 1 }

/- The latitude 40.7128123456789 from the specification, and its value after
   a scale-7 decimal column stores it. -/
def highLat : ℚ := (407128123456789 : ℚ) / 10000000000000

theorem quantize7_highLat : quantize7 highLat = (407128123 : ℚ) / 10000000 := by
  unfold quantize7 highLat
  have h1 : ((407128123456789 : ℚ) / 10000000000000) * 10000000
      = (407128123456789 : ℚ) / 1000000 := by
    norm_num
  rw [h1]
  rw [show roundAway ((407128123456789 : ℚ) / 1000000)
      = round ((407128123456789 : ℚ) / 1000000) by
    unfold roundAway
    rw [if_neg (by norm_num)]]
  have h2 : round ((407128123456789 : ℚ) / 1000000) = 407128123 := by
    rw [round_eq]
    have h3 : (407128123456789 : ℚ) / 1000000 + 1 / 2
        = (407128123956789 : ℚ) / 1000000 := by norm_num
    rw [h3]
    rw [Int.floor_eq_iff]
    constructor
    · push_cast
      norm_num
    · push_cast
      norm_num
  rw [h2]
  norm_num

theorem quantize7_highLat_ne : quantize7 highLat ≠ highLat := by
  rw [quantize7_highLat]
  unfold highLat
  norm_num

/- The load 0.123456789 from the repository's own high-precision test, and
   its value after a real (float4) column stores it: 16570090 * 2 ^ (-27),
   that is 0.12345679104328155517578125. -/
def loadVal : ℚ := (123456789 : ℚ) / 1000000000

theorem real32_loadVal : real32 loadVal = (16570090 : ℚ) / 134217728 := by
  unfold real32 loadVal
  rw [if_neg (by norm_num)]
  rw [show |(123456789 : ℚ) / 1000000000| = (123456789 : ℚ) / 1000000000 from
    abs_of_pos (by norm_num)]
  rw [show Int.log 2 ((123456789 : ℚ) / 1000000000) = -4 from
    int_log_two_eq (by norm_num) (by norm_num) (by norm_num)]
  rw [show ((-4 : ℤ) - 23) = (-27 : ℤ) from by norm_num]
  rw [show (2 : ℚ) ^ (-27 : ℤ) = 1 / 134217728 from by norm_num]
  rw [show (123456789 : ℚ) / 1000000000 / (1 / 134217728)
      = (16570089725755392 : ℚ) / 1000000000 from by norm_num]
  have hfl : ⌊(16570089725755392 : ℚ) / 1000000000⌋ = 16570089 := by
    rw [Int.floor_eq_iff]
    constructor
    · push_cast
      norm_num
    · push_cast
      norm_num
  have hre : roundEven ((16570089725755392 : ℚ) / 1000000000) = 16570090 := by
    unfold roundEven
    rw [hfl]
    rw [if_neg (by push_cast; norm_num), if_pos (by push_cast; norm_num)]
    norm_num
  rw [hre]
  norm_num

theorem real32_loadVal_ne : real32 loadVal ≠ loadVal := by
  rw [real32_loadVal]
  unfold loadVal
  norm_num

def highCreate : CreateLocationInput :=
  { name := "High Precision Site", address := none, latitude := highLat,
    longitude := -74, snow_load := loadVal, wind_speed := 1, seismic_load := 1 }

/-- C5 counterexample: for the valid create input with latitude
40.7128123456789 and snow_load 0.123456789 the record returned by
createLocation carries neither input value — the numeric(10,7) column rounds
the latitude to 40.7128123 and the real (float4) column narrows the load to
0.12345679104328155517578125 — so the claim that every returned field equals
the corresponding input field is false as stated. -/
theorem c5_counterexample :
    (createLocation emptyStore highCreate 0).1.latitude ≠ highCreate.latitude ∧
    (createLocation emptyStore highCreate 0).1.snow_load ≠ highCreate.snow_load := by
  constructor
  · have h : (createLocation emptyStore highCreate 0).1.latitude
        = quantize7 highLat := rfl
    have h2 : highCreate.latitude = highLat := rfl
    rw [h, h2]
    exact quantize7_highLat_ne
  · have h : (createLocation emptyStore highCreate 0).1.snow_load
        = real32 loadVal := rfl
    have h2 : highCreate.snow_load = loadVal := rfl
    rw [h, h2]
    exact real32_loadVal_ne

/-- C5 (amended): for every valid create input, the record returned by
createLocation carries the input name and address unchanged, its latitude and
longitude are the input coordinates rounded to the 7-decimal scale of the
numeric columns, its load values are the inputs narrowed to the single
precision of the real columns (each equal to its input exactly when the input
is representable at that column precision), and its created_at equals its
updated_at. -/
theorem c5_create_returns_persisted_fields (s : Store) (inp : CreateLocationInput)
    (now : Nat) (hv : createLocationInputValid inp = true) :
    (createLocation s inp now).1.name = inp.name ∧
    (createLocation s inp now).1.address = inp.address ∧
    (createLocation s inp now).1.latitude = quantize7 inp.latitude ∧
    (createLocation s inp now).1.longitude = quantize7 inp.longitude ∧
    (createLocation s inp now).1.snow_load = real32 inp.snow_load ∧
    (createLocation s inp now).1.wind_speed = real32 inp.wind_speed ∧
    (createLocation s inp now).1.seismic_load = real32 inp.seismic_load ∧
    (createLocation s inp now).1.created_at = (createLocation s inp now).1.updated_at :=
  ⟨rfl, rfl, rfl, rfl, rfl, rfl, rfl, rfl⟩

theorem c5_witness : createLocationInputValid sampleCreate = true ∧
    ((createLocation emptyStore sampleCreate 5).1.name = sampleCreate.name ∧
     (createLocation emptyStore sampleCreate 5).1.address = sampleCreate.address ∧
     (createLocation emptyStore sampleCreate 5).1.latitude = quantize7 sampleCreate.latitude ∧
     (createLocation emptyStore sampleCreate 5).1.longitude = quantize7 sampleCreate.longitude ∧
     (createLocation emptyStore sampleCreate 5).1.snow_load = real32 sampleCreate.snow_load ∧
     (createLocation emptyStore sampleCreate 5).1.wind_speed = real32 sampleCreate.wind_speed ∧
     (createLocation emptyStore sampleCreate 5).1.seismic_load = real32 sampleCreate.seismic_load ∧
     (createLocation emptyStore sampleCreate 5).1.created_at
        = (createLocation emptyStore sampleCreate 5).1.updated_at) :=
  ⟨by decide, c5_create_returns_persisted_fields emptyStore sampleCreate 5 (by decide)⟩

/-- C6: every coordinate stored through createLocation (stored as decimal
text with 7-digit scale, reloaded via parseFloat) differs from the input by
at most 1e-6; in particular this holds at the latitude 40.7128123456789.
The actual bound is the half-digit 5e-8. -/
theorem c6_coordinate_roundtrip :
    (∀ (s : Store) (inp : CreateLocationInput) (now : Nat),
      |(createLocation s inp now).1.latitude - inp.latitude| ≤ 1 / 1000000 ∧
      |(createLocation s inp now).1.longitude - inp.longitude| ≤ 1 / 1000000) ∧
    |(createLocation emptyStore highCreate 0).1.latitude - highCreate.latitude|
      ≤ 1 / 1000000 := by
  have key : ∀ (s : Store) (inp : CreateLocationInput) (now : Nat),
      |(createLocation s inp now).1.latitude - inp.latitude| ≤ 1 / 1000000 ∧
      |(createLocation s inp now).1.longitude - inp.longitude| ≤ 1 / 1000000 := by
    intro s inp now
    constructor
    · have h : (createLocation s inp now).1.latitude = quantize7 inp.latitude := rfl
      rw [h]
      have h1 := abs_quantize7_sub_le inp.latitude
      linarith [h1]
    · have h : (createLocation s inp now).1.longitude = quantize7 inp.longitude := rfl
      rw [h]
      have h1 := abs_quantize7_sub_le inp.longitude
      linarith [h1]
  exact ⟨key, (key emptyStore highCreate 0).1⟩

def sampleUpdate : UpdateLocationInput :=
  { id := 1, name := some "Renamed Site", address := some none,
    latitude := some 41, longitude := none, snow_load := none,
    wind_speed := some 30, seismic_load := none }

def highUpdate : UpdateLocationInput :=
  { id := 1, name := none, address := none, latitude := some highLat,
    longitude := none, snow_load := some loadVal, wind_speed := none,
    seismic_load := none }

/-- C1 counterexample: updating the stored record with the in-range latitude
40.7128123456789 and snow_load 0.123456789 leaves the record holding
40.7128123 and 0.12345679104328155517578125 — the numeric(10,7) column
rounded the supplied coordinate and the real (float4) column narrowed the
supplied load — so the claim that a present field is overwritten with exactly
the supplied value is false as stated. -/
theorem c1_counterexample :
    (match updateLocation sampleStore highUpdate 9 with
     | Except.ok p => p.1.latitude
     | Except.error _ => 0) ≠ highLat ∧
    (match updateLocation sampleStore highUpdate 9 with
     | Except.ok p => p.1.snow_load
     | Except.error _ => 0) ≠ loadVal := by
  constructor
  · have h : (match updateLocation sampleStore highUpdate 9 with
        | Except.ok p => p.1.latitude
        | Except.error _ => 0) = quantize7 highLat := rfl
    rw [h]
    exact quantize7_highLat_ne
  · have h : (match updateLocation sampleStore highUpdate 9 with
        | Except.ok p => p.1.snow_load
        | Except.error _ => 0) = real32 loadVal := rfl
    rw [h]
    exact real32_loadVal_ne

/-- C1 (amended): for every update call whose input id matches a stored
record (ids being unique), the call succeeds; every field absent from the
input keeps its pre-update value; every present field is overwritten with the
supplied value as the column stores it — coordinates rounded to the 7-decimal
scale of the numeric columns, loads narrowed to the single precision of the
real columns, an explicit null address overwriting; updated_at is always
refreshed to the call time, and so strictly exceeds its previous value
whenever the call happens at a later time; created_at is unchanged. -/
theorem c1_update_partial_fields (s : Store) (inp : UpdateLocationInput)
    (now : Nat) (r : LocationRecord)
    (hnd : (s.rows.map LocationRecord.id).Nodup)
    (hmem : r ∈ s.rows) (hid : r.id = inp.id) :
    ∃ r1 s1, updateLocation s inp now = Except.ok (r1, s1) ∧
      (inp.name = none → r1.name = r.name) ∧
      (∀ v, inp.name = some v → r1.name = v) ∧
      (inp.address = none → r1.address = r.address) ∧
      (∀ a, inp.address = some a → r1.address = a) ∧
      (inp.latitude = none → r1.latitude = r.latitude) ∧
      (∀ v, inp.latitude = some v → r1.latitude = quantize7 v) ∧
      (inp.longitude = none → r1.longitude = r.longitude) ∧
      (∀ v, inp.longitude = some v → r1.longitude = quantize7 v) ∧
      (inp.snow_load = none → r1.snow_load = r.snow_load) ∧
      (∀ v, inp.snow_load = some v → r1.snow_load = real32 v) ∧
      (inp.wind_speed = none → r1.wind_speed = r.wind_speed) ∧
      (∀ v, inp.wind_speed = some v → r1.wind_speed = real32 v) ∧
      (inp.seismic_load = none → r1.seismic_load = r.seismic_load) ∧
      (∀ v, inp.seismic_load = some v → r1.seismic_load = real32 v) ∧
      r1.created_at = r.created_at ∧
      r1.updated_at = now ∧
      (r.updated_at < now → r.updated_at < r1.updated_at) := by
  have hf := find_by_id_unique hnd hmem hid
  refine ⟨applyUpdate inp now r,
    { rows := s.rows.map (fun q => if q.id == inp.id then applyUpdate inp now q else q),
      nextId := s.nextId, now := now }, ?_, ?_, ?_, ?_, ?_, ?_, ?_, ?_, ?_, ?_,
      ?_, ?_, ?_, ?_, ?_, rfl, rfl, fun h => h⟩
  · unfold updateLocation
    rw [hf]
  · intro h; simp [applyUpdate, h]
  · intro v h; simp [applyUpdate, h]
  · intro h; simp [applyUpdate, h]
  · intro a h; simp [applyUpdate, h]
  · intro h; simp [applyUpdate, h]
  · intro v h; simp [applyUpdate, h]
  · intro h; simp [applyUpdate, h]
  · intro v h; simp [applyUpdate, h]
  · intro h; simp [applyUpdate, h]
  · intro v h; simp [applyUpdate, h]
  · intro h; simp [applyUpdate, h]
  · intro v h; simp [applyUpdate, h]
  · intro h; simp [applyUpdate, h]
  · intro v h; simp [applyUpdate, h]

theorem c1_witness :
    ((sampleStore.rows.map LocationRecord.id).Nodup ∧
     sampleRecord ∈ sampleStore.rows ∧
     sampleRecord.id = sampleUpdate.id) ∧
    (∃ r1 s1, updateLocation sampleStore sampleUpdate 9 = Except.ok (r1, s1) ∧
      (sampleUpdate.name = none → r1.name = sampleRecord.name) ∧
      (∀ v, sampleUpdate.name = some v → r1.name = v) ∧
      (sampleUpdate.address = none → r1.address = sampleRecord.address) ∧
      (∀ a, sampleUpdate.address = some a → r1.address = a) ∧
      (sampleUpdate.latitude = none → r1.latitude = sampleRecord.latitude) ∧
      (∀ v, sampleUpdate.latitude = some v → r1.latitude = quantize7 v) ∧
      (sampleUpdate.longitude = none → r1.longitude = sampleRecord.longitude) ∧
      (∀ v, sampleUpdate.longitude = some v → r1.longitude = quantize7 v) ∧
      (sampleUpdate.snow_load = none → r1.snow_load = sampleRecord.snow_load) ∧
      (∀ v, sampleUpdate.snow_load = some v → r1.snow_load = real32 v) ∧
      (sampleUpdate.wind_speed = none → r1.wind_speed = sampleRecord.wind_speed) ∧
      (∀ v, sampleUpdate.wind_speed = some v → r1.wind_speed = real32 v) ∧
      (sampleUpdate.seismic_load = none → r1.seismic_load = sampleRecord.seismic_load) ∧
      (∀ v, sampleUpdate.seismic_load = some v → r1.seismic_load = real32 v) ∧
      r1.created_at = sampleRecord.created_at ∧
      r1.updated_at = 9 ∧
      (sampleRecord.updated_at < 9 → sampleRecord.updated_at < r1.updated_at)) :=
  ⟨⟨by decide, by decide, by decide⟩,
   c1_update_partial_fields sampleStore sampleUpdate 9 sampleRecord
     (by decide) (by decide) (by decide)⟩

def notFoundUpdate : UpdateLocationInput :=
  { id := 2, name := none, address := none, latitude := none,
    longitude := none, snow_load := none, wind_speed := none,
    seismic_load := none }

/-- C8: an update call whose id matches no stored record throws the
"Location with id ... not found" error to the caller and leaves the store
unchanged. -/
theorem c8_update_not_found (s : Store) (inp : UpdateLocationInput) (now : Nat)
    (h : ∀ r ∈ s.rows, r.id ≠ inp.id) :
    updateLocation s inp now
        = Except.error ("Location with id " ++ toString inp.id ++ " not found") ∧
      updateStore s inp now = s := by
  have hf : s.rows.find? (fun r => r.id == inp.id) = none := by
    rw [List.find?_eq_none]
    intro r hr
    simpa using h r hr
  constructor
  · unfold updateLocation
    rw [hf]
  · unfold updateStore updateLocation
    rw [hf]

theorem c8_witness :
    (∀ r ∈ sampleStore.rows, r.id ≠ notFoundUpdate.id) ∧
    (updateLocation sampleStore notFoundUpdate 3
        = Except.error ("Location with id " ++ toString notFoundUpdate.id ++ " not found") ∧
      updateStore sampleStore notFoundUpdate 3 = sampleStore) :=
  ⟨by decide, c8_update_not_found sampleStore notFoundUpdate 3 (by decide)⟩

/-- C9: getLocationById returns null exactly when no stored record carries
the requested id — a normal, non-error outcome — and any record it returns
is a stored record with the requested id. -/
theorem c9_get_by_id (s : Store) (i : Nat) :
    (getLocationById s i = none ↔ ∀ r ∈ s.rows, r.id ≠ i) ∧
    (∀ r, getLocationById s i = some r → r ∈ s.rows ∧ r.id = i) := by
  constructor
  · rw [getLocationById, List.find?_eq_none]
    constructor
    · intro h r hr
      simpa using h r hr
    · intro h r hr
      simpa using h r hr
  · intro r hr
    have hr1 : s.rows.find? (fun q => q.id == i) = some r := hr
    have h1 := List.mem_of_find?_eq_some hr1
    have h2 := List.find?_some hr1
    simp only [beq_iff_eq] at h2
    exact ⟨h1, h2⟩

theorem c9_witness :
    getLocationById sampleStore 2 = none ∧
    (getLocationById sampleStore 1 = some sampleRecord →
      sampleRecord ∈ sampleStore.rows ∧ sampleRecord.id = 1) :=
  ⟨(c9_get_by_id sampleStore 2).1.mpr (by decide),
   fun h => (c9_get_by_id sampleStore 1).2 sampleRecord h⟩

/-- C10: deleteLocation reports success exactly when a record with the given
id existed; after the call no record with that id remains while every other
record does; and deleting the same id again reports false. -/
theorem c10_delete_semantics (s : Store) (i : Nat) :
    ((deleteLocation s i).1 = true ↔ ∃ r ∈ s.rows, r.id = i) ∧
    (∀ r ∈ (deleteLocation s i).2.rows, r.id ≠ i) ∧
    (∀ r ∈ s.rows, r.id ≠ i → r ∈ (deleteLocation s i).2.rows) ∧
    (deleteLocation (deleteLocation s i).2 i).1 = false := by
  refine ⟨?_, ?_, ?_, ?_⟩
  · show (!(s.rows.find? (fun r => r.id == i)).isNone) = true ↔ _
    rw [Bool.not_eq_true', Option.isNone_eq_false_iff, List.find?_isSome]
    simp
  · intro r hr
    have h1 : r ∈ s.rows.filter (fun q => q.id != i) := hr
    rw [List.mem_filter] at h1
    simpa using h1.2
  · intro r hr hne
    show r ∈ s.rows.filter (fun q => q.id != i)
    rw [List.mem_filter]
    exact ⟨hr, by simpa using hne⟩
  · show (!((s.rows.filter (fun q => q.id != i)).find? (fun r => r.id == i)).isNone) = false
    have hf : (s.rows.filter (fun q => q.id != i)).find? (fun r => r.id == i) = none := by
      rw [List.find?_eq_none]
      intro r hr
      rw [List.mem_filter] at hr
      simpa using hr.2
    rw [hf]
    rfl

theorem c10_witness :
    ((deleteLocation sampleStore 1).1 = true ↔ ∃ r ∈ sampleStore.rows, r.id = 1) ∧
    (∀ r ∈ (deleteLocation sampleStore 1).2.rows, r.id ≠ 1) ∧
    (∀ r ∈ sampleStore.rows, r.id ≠ 1 → r ∈ (deleteLocation sampleStore 1).2.rows) ∧
    (deleteLocation (deleteLocation sampleStore 1).2 1).1 = false :=
  c10_delete_semantics sampleStore 1

def c4Row1 : CsvLocation :=
  { name := "Location A", address := some "123 Main St", latitude := 40,
    longitude := -74, snow_load := 1, wind_speed := 25, seismic_load := 1 }

def c4Row2 : CsvLocation :=
  { name := "Location B", address := none, latitude := 34,
    longitude := -118, snow_load := 1, wind_speed := 30, seismic_load := 1 }

def c4Row3 : CsvLocation :=
  { name := "Location C", address := some "789 Oak Ave", latitude := 41,
    longitude := -87, snow_load := 2, wind_speed := 20, seismic_load := 1 }

def c4BadRow : CsvLocation :=
  { name := "Bad Location", address := none, latitude := 200,
    longitude := 0, snow_load := 1, wind_speed := 1, seismic_load := 1 }

def c4Input : List CsvLocation := [c4Row1, c4Row2, c4Row3, c4BadRow]

/- A database in which every insert succeeds, and one in which exactly the
   second row's insert fails. -/
def dbAlwaysOk : Nat → CsvLocation → Option String := fun _ _ => none

def dbFailSecond : Nat → CsvLocation → Option String :=
  fun i _ => if i == 1 then some "duplicate key value" else none

/-- C4 counterexample: the bulk-upload RPC over 3 valid rows plus one row
with latitude 200 does not return created_count 3 with one row error — the
router validates the whole batch against bulkUploadInputSchema before the
handler runs, so the call is rejected entirely and no row is persisted. -/
theorem c4_counterexample :
    bulkUploadRPC dbAlwaysOk emptyStore 0 c4Input = Except.error "Invalid input" := by
  unfold bulkUploadRPC
  rw [show (decide (1 ≤ c4Input.length) && c4Input.all csvLocationValid) = false
    by decide]
  rfl

/-- C4 (amended): a bulk upload call whose input list contains any row
violating csvLocationSchema (such as latitude 200) is rejected wholesale by
input validation before the handler runs: the call fails with a validation
error and no partial success occurs; per-row error isolation applies only to
insert-time failures inside the handler. -/
theorem c4_validation_rejects (dbFail : Nat → CsvLocation → Option String)
    (s : Store) (now : Nat) (input : List CsvLocation) (l : CsvLocation)
    (hmem : l ∈ input) (hbad : csvLocationValid l = false) :
    bulkUploadRPC dbFail s now input = Except.error "Invalid input" := by
  unfold bulkUploadRPC
  have hall : input.all csvLocationValid = false := by
    rw [List.all_eq_false]
    exact ⟨l, hmem, by simp [hbad]⟩
  rw [hall, Bool.and_false]
  rfl

theorem c4_witness :
    (c4BadRow ∈ c4Input ∧ csvLocationValid c4BadRow = false) ∧
    bulkUploadRPC dbAlwaysOk sampleStore 7 c4Input = Except.error "Invalid input" :=
  ⟨⟨by decide, by decide⟩,
   c4_validation_rejects dbAlwaysOk sampleStore 7 c4Input c4BadRow
     (by decide) (by decide)⟩

/-- C3: over any non-empty candidate list the handler attempts every row in
order: the created count plus the number of per-row error messages (each
built as "Row n (name): reason" with the 1-based row number) covers the whole
input, the store grows by exactly the created count, the success flag is true
exactly when at least one row was inserted, and the errors field is omitted
entirely — not an empty list — when no row failed. -/
theorem c3_bulk_report (dbFail : Nat → CsvLocation → Option String) (s : Store)
    (now : Nat) (input : List CsvLocation) (h : input ≠ []) :
    (bulkUploadLocations dbFail s now input).1.created_count
        + (bulkRowErrorsSpec dbFail 0 input).length = input.length ∧
    (bulkUploadLocations dbFail s now input).2.rows.length
        = s.rows.length + (bulkUploadLocations dbFail s now input).1.created_count ∧
    ((bulkUploadLocations dbFail s now input).1.success = true
        ↔ s.rows.length < (bulkUploadLocations dbFail s now input).2.rows.length) ∧
    (bulkUploadLocations dbFail s now input).1.errors
        = (if bulkRowErrorsSpec dbFail 0 input = [] then none
           else some (bulkRowErrorsSpec dbFail 0 input)) := by
  have hcount := bulkGo_count_add_failures dbFail now input 0 s
  have hlen := bulkGo_rows_length dbFail now input 0 s
  have herr := bulkGo_errors_eq dbFail now input 0 s
  refine ⟨?_, ?_, ?_, ?_⟩
  · exact hcount
  · exact hlen
  · show decide (0 < (bulkGo dbFail now input 0 s).1) = true
        ↔ s.rows.length < (bulkGo dbFail now input 0 s).2.2.rows.length
    rw [decide_eq_true_eq, hlen]
    omega
  · show (if (bulkGo dbFail now input 0 s).2.1.isEmpty then none
        else some (bulkGo dbFail now input 0 s).2.1) = _
    rw [herr]
    cases hE : bulkRowErrorsSpec dbFail 0 input with
    | nil => simp
    | cons a es => simp

theorem c3_witness :
    ([c4Row1, c4Row2] ≠ ([] : List CsvLocation)) ∧
    ((bulkUploadLocations dbFailSecond emptyStore 7 [c4Row1, c4Row2]).1.created_count
        + (bulkRowErrorsSpec dbFailSecond 0 [c4Row1, c4Row2]).length = 2 ∧
     (bulkUploadLocations dbFailSecond emptyStore 7 [c4Row1, c4Row2]).2.rows.length
        = emptyStore.rows.length
          + (bulkUploadLocations dbFailSecond emptyStore 7 [c4Row1, c4Row2]).1.created_count ∧
     ((bulkUploadLocations dbFailSecond emptyStore 7 [c4Row1, c4Row2]).1.success = true
        ↔ emptyStore.rows.length
            < (bulkUploadLocations dbFailSecond emptyStore 7 [c4Row1, c4Row2]).2.rows.length) ∧
     (bulkUploadLocations dbFailSecond emptyStore 7 [c4Row1, c4Row2]).1.errors
        = (if bulkRowErrorsSpec dbFailSecond 0 [c4Row1, c4Row2] = [] then none
           else some (bulkRowErrorsSpec dbFailSecond 0 [c4Row1, c4Row2]))) :=
  ⟨by decide, c3_bulk_report dbFailSecond emptyStore 7 [c4Row1, c4Row2] (by decide)⟩

/-- C2: when a later row of a bulk upload fails while an earlier row's insert
succeeded, the earlier row is still persisted in the store the call returns —
inside the transaction scope the per-row try/catch keeps row outcomes
independent, so the later failure does not roll back the earlier insert.
The transaction commit itself is modelled from the spec (section 5), the db
module being absent from the sources. -/
theorem c2_earlier_rows_persist (dbFail : Nat → CsvLocation → Option String)
    (s : Store) (now : Nat) (input : List CsvLocation) (i j : Nat)
    (hi : i < input.length) (hj : j < input.length) (hij : i < j)
    (hisucc : dbFail i (input.get ⟨i, hi⟩) = none)
    (hjfail : (dbFail j (input.get ⟨j, hj⟩)).isSome = true) :
    ∃ r ∈ (bulkUploadLocations dbFail s now input).2.rows,
      MatchesRow r (input.get ⟨i, hi⟩) now := by
  have h := bulkGo_success_persisted dbFail now input 0 s i hi
    (by simpa using hisucc)
  exact h

theorem c2_witness :
    ∃ r ∈ (bulkUploadLocations dbFailSecond emptyStore 7 [c4Row1, c4Row2]).2.rows,
      MatchesRow r c4Row1 7 := by
  have h := c2_earlier_rows_persist dbFailSecond emptyStore 7 [c4Row1, c4Row2]
    0 1 (by decide) (by decide) (by decide) (by decide) (by decide)
  simpa using h

/-- C7: every store reachable from the empty store by any sequence of
schema-validated create, update, delete and bulk-upload operations contains
only records with latitude in [-90, 90], longitude in [-180, 180],
nonnegative snow, wind and seismic loads, and updated_at at least
created_at. -/
theorem c7_reachable_invariants (s : Store) (h : Reachable s) :
    ∀ r ∈ s.rows, -90 ≤ r.latitude ∧ r.latitude ≤ 90 ∧
      -180 ≤ r.longitude ∧ r.longitude ≤ 180 ∧
      0 ≤ r.snow_load ∧ 0 ≤ r.wind_speed ∧ 0 ≤ r.seismic_load ∧
      r.created_at ≤ r.updated_at := by
  intro r hr
  obtain ⟨h1, h2, h3, h4, h5, h6, h7, h8, -⟩ := StoreOk_of_Reachable h r hr
  exact ⟨h1, h2, h3, h4, h5, h6, h7, h8⟩

theorem c7_witness :
    -90 ≤ (createLocation emptyStore sampleCreate 3).1.latitude ∧
    (createLocation emptyStore sampleCreate 3).1.latitude ≤ 90 ∧
    -180 ≤ (createLocation emptyStore sampleCreate 3).1.longitude ∧
    (createLocation emptyStore sampleCreate 3).1.longitude ≤ 180 ∧
    0 ≤ (createLocation emptyStore sampleCreate 3).1.snow_load ∧
    0 ≤ (createLocation emptyStore sampleCreate 3).1.wind_speed ∧
    0 ≤ (createLocation emptyStore sampleCreate 3).1.seismic_load ∧
    (createLocation emptyStore sampleCreate 3).1.created_at
      ≤ (createLocation emptyStore sampleCreate 3).1.updated_at :=
  c7_reachable_invariants (createLocation emptyStore sampleCreate 3).2
    (Reachable.create emptyStore sampleCreate 3 Reachable.empty
      (by decide) (by decide))
    (createLocation emptyStore sampleCreate 3).1
    (by simp [createLocation, emptyStore])
